import Mathlib

/-!
Verification of the order-enrichment backend (`main.py`).

The store is modelled as two in-memory collections (`products`, `orders`).
MongoDB BSON values relevant to the join are modelled by `BsonId`:
a store-assigned ObjectId (`oid`) or an application string (`str`);
BSON equality is type-sensitive, so a string never equals an ObjectId.
Prices (Python floats) are modelled as rationals; the claims checked here
are structural (sums of products over lists), exact in every numeric model.
-/

/-- A BSON identifier: either a store-generated ObjectId (modelled by a
natural number) or a string supplied by the application. MongoDB equality
between values of different BSON types is false, which `DecidableEq` on
this sum type reproduces. -/
inductive BsonId where
  | oid (n : Nat)
  | str (s : String)
deriving DecidableEq, Repr

/-- `str(x)` as applied by the response shaping: an ObjectId prints as its
representation, a string is returned as-is. -/
def BsonId.toStr : BsonId → String
  | .oid n => toString n
  | .str s => s

/-- `Size` model from `main.py`: `{size: str, quantity: int}`. -/
structure Size where
  size : String
  quantity : Int
deriving DecidableEq, Repr

/-- Request body of `POST /products`: `{name, price, sizes}` (no id). -/
structure Product where
  name : String
  price : ℚ
  sizes : List Size
deriving DecidableEq, Repr

/-- A document of the `products` collection: the inserted `Product` fields
plus the `_id` assigned at insertion. -/
structure ProductDoc where
  _id : BsonId
  name : String
  price : ℚ
  sizes : List Size
deriving DecidableEq, Repr

/-- `OrderItem` model from `main.py`: `{productId: str, qty: int}`. -/
structure OrderItem where
  productId : String
  qty : Int
deriving DecidableEq, Repr

/-- Request body of `POST /orders`: `{userId, items}` (no id). -/
structure Order where
  userId : String
  items : List OrderItem
deriving DecidableEq, Repr

/-- A document of the `orders` collection. -/
structure OrderDoc where
  _id : BsonId
  userId : String
  items : List OrderItem
deriving DecidableEq, Repr

/-- The two collections of the `ecommerce` database. -/
structure Store where
  products : List ProductDoc
  orders : List OrderDoc
deriving DecidableEq, Repr

/-! ### The aggregation pipeline of `get_user_orders`, stage by stage -/

/-- A pipeline document after `$unwind: "$items"`: the `items` field now
holds a single item. -/
structure Row1 where
  _id : BsonId
  userId : String
  items : OrderItem
deriving DecidableEq, Repr

/-- The `items` subdocument after the `$lookup` attached
`items.productDetails` (an array of all matching products). -/
structure ItemLookup where
  productId : String
  qty : Int
  productDetails : List ProductDoc
deriving DecidableEq, Repr

/-- A pipeline document after the `$lookup` stage. -/
structure RowL where
  _id : BsonId
  userId : String
  items : ItemLookup
deriving DecidableEq, Repr

/-- The `items` subdocument after `$unwind: "$items.productDetails"`:
exactly one joined product. -/
structure JoinedItem where
  productId : String
  qty : Int
  productDetails : ProductDoc
deriving DecidableEq, Repr

/-- A pipeline document after the second `$unwind`. -/
structure Row2 where
  _id : BsonId
  userId : String
  items : JoinedItem
deriving DecidableEq, Repr

/-- A group produced by the `$group` stage: key `_id`, pushed `items`,
accumulated `total`. -/
structure GroupedOrder where
  _id : BsonId
  items : List JoinedItem
  total : ℚ
deriving DecidableEq, Repr

/-- `{"$match": {"userId": user_id}}`. -/
def matchStage (orders : List OrderDoc) (user_id : String) : List OrderDoc :=
  orders.filter (fun o => decide (o.userId = user_id))

/-- `{"$unwind": "$items"}`: one output document per element of `items`;
a document whose `items` array is empty produces no output. -/
def unwindItems (orders : List OrderDoc) : List Row1 :=
  orders.flatMap (fun o => o.items.map (fun it => ⟨o._id, o.userId, it⟩))

/-- `{"$lookup": {from: "products", localField: "items.productId",
foreignField: "_id", as: "items.productDetails"}}`: attaches the array of
products whose `_id` equals (BSON-typed equality) the item's `productId`
string. -/
def lookupStage (products : List ProductDoc) (rows : List Row1) : List RowL :=
  rows.map (fun r =>
    ⟨r._id, r.userId,
      ⟨r.items.productId, r.items.qty,
        products.filter (fun p => decide (p._id = BsonId.str r.items.productId))⟩⟩)

/-- `{"$unwind": "$items.productDetails"}`: one output document per matched
product; a document whose lookup array is empty is dropped. -/
def unwindDetails (rows : List RowL) : List Row2 :=
  rows.flatMap (fun r =>
    r.items.productDetails.map (fun p => ⟨r._id, r.userId, ⟨r.items.productId, r.items.qty, p⟩⟩))

/-- The distinct `_id` keys of the rows reaching `$group`, in order of first
appearance. A key is materialized only if some row carries it. -/
def groupKeys : List Row2 → List BsonId
  | [] => []
  | r :: rs => r._id :: (groupKeys rs).filter (fun k => decide (¬ k = r._id))

/-- `{"$group": {_id: "$_id", items: {$push: "$items"}, total: {$sum:
{$multiply: ["$items.qty", "$items.productDetails.price"]}}}}`. -/
def groupStage (rows : List Row2) : List GroupedOrder :=
  (groupKeys rows).map (fun k =>
    let grp := rows.filter (fun r => decide (r._id = k))
    ⟨k, grp.map (fun r => r.items),
      (grp.map (fun r => (r.items.qty : ℚ) * r.items.productDetails.price)).sum⟩)

/-! ### Response shaping -/

/-- A product as returned to the caller: `_id` renamed to `id` (stringified),
`sizes` removed — the output type has no `sizes` field at all. -/
structure ProductOut where
  name : String
  price : ℚ
  id : String
deriving DecidableEq, Repr

/-- An enriched order item as returned to the caller. -/
structure ItemOut where
  productId : String
  qty : Int
  productDetails : ProductOut
deriving DecidableEq, Repr

/-- An enriched order as returned to the caller. -/
structure OrderOut where
  items : List ItemOut
  total : ℚ
  id : String
deriving DecidableEq, Repr

/-- The pagination envelope `{next, limit, previous}`. -/
structure Page where
  next : Int
  limit : Nat
  previous : Int
deriving DecidableEq, Repr

/-- Response of `GET /orders/{user_id}`. -/
structure OrdersResponse where
  data : List OrderOut
  page : Page
deriving DecidableEq, Repr

/-- Response of `GET /products`. -/
structure ProductsResponse where
  data : List ProductOut
  page : Page
deriving DecidableEq, Repr

/-- `item['productDetails']['id'] = str(pop('_id')); del ...['sizes']`. -/
def shapeProduct (p : ProductDoc) : ProductOut :=
  ⟨p.name, p.price, p._id.toStr⟩

/-- Shaping of one pushed item of a group. -/
def shapeItem (it : JoinedItem) : ItemOut :=
  ⟨it.productId, it.qty, shapeProduct it.productDetails⟩

/-- `order['id'] = str(order.pop('_id'))` plus per-item shaping. -/
def shapeOrder (g : GroupedOrder) : OrderOut :=
  ⟨g.items.map shapeItem, g.total, g._id.toStr⟩

/-- The rows reaching the `$group` stage: the composition of the first four
pipeline stages (`$match`, `$unwind`, `$lookup`, `$unwind`). -/
def pipelineRows (store : Store) (user_id : String) : List Row2 :=
  unwindDetails (lookupStage store.products (unwindItems (matchStage store.orders user_id)))

/-- All result groups of the pipeline for a user, shaped, before the
`$skip`/`$limit` window is applied. -/
def allEnrichedOrders (store : Store) (user_id : String) : List OrderOut :=
  (groupStage (pipelineRows store user_id)).map shapeOrder

/-- `GET /orders/{user_id}?limit=&offset=` (`get_user_orders` in `main.py`):
the full pipeline `$match`, `$unwind`, `$lookup`, `$unwind`, `$group`,
`$skip`, `$limit`, followed by shaping and the pagination envelope. -/
def get_user_orders (store : Store) (user_id : String) (limit offset : Int) :
    OrdersResponse :=
  let groups := groupStage (pipelineRows store user_id)
  let orders := ((groups.drop offset.toNat).take limit.toNat).map shapeOrder
  ⟨orders, ⟨offset + limit, orders.length, max 0 (offset - limit)⟩⟩

/-! ### `list_products` -/

/-- ASCII case folding of one character code: the effect of the regex
`i` option on a character. -/
def lowerCode (n : Nat) : Nat := if 65 ≤ n ∧ n ≤ 90 then n + 32 else n

/-- The character codes of a string, case-folded. -/
def foldedCodes (s : String) : List Nat :=
  s.toList.map (fun c => lowerCode c.toNat)

/-- Case-insensitive literal substring test: the translation of
`{"$regex": re.escape(name), "$options": "i"}` applied to a name —
`re.escape` makes the pattern literal, the `i` option folds case. -/
def containsCI (pat s : String) : Bool :=
  decide (foldedCodes pat <:+: foldedCodes s)

/-- The `find` query document built by `list_products`: a name filter is
added only when `name` is a non-empty string (`if name:`), a size filter
(`"sizes.size": size`, matching any element of the array) only when `size`
is non-empty. -/
def productQueryMatches (name size : Option String) (p : ProductDoc) : Bool :=
  (match name with
   | some n => if n = "" then true else containsCI n p.name
   | none => true)
  &&
  (match size with
   | some s => if s = "" then true else p.sizes.any (fun sz => decide (sz.size = s))
   | none => true)

/-- `GET /products?name=&size=&limit=&offset=` (`list_products` in
`main.py`): filter, skip, limit, project out `sizes`, rename `_id` to `id`,
wrap in the pagination envelope. -/
def list_products (store : Store) (name size : Option String) (limit offset : Int) :
    ProductsResponse :=
  let filtered := store.products.filter (productQueryMatches name size)
  let products := ((filtered.drop offset.toNat).take limit.toNat).map shapeProduct
  ⟨products, ⟨offset + limit, products.length, max 0 (offset - limit)⟩⟩

/-! ### The write endpoints -/

/-- `POST /products` (`create_product`): inserts the body verbatim; the
store assigns a fresh ObjectId `_id` (`insert_one` on a dict without
`_id`). `n` models the generated ObjectId. -/
def create_product (store : Store) (p : Product) (n : Nat) : Store :=
  ⟨store.products ++ [⟨BsonId.oid n, p.name, p.price, p.sizes⟩], store.orders⟩

/-- `POST /orders` (`create_order`): inserts the body verbatim — each
item's `productId` is stored as the given string; the store assigns a
fresh ObjectId `_id` to the order document. -/
def create_order (store : Store) (o : Order) (n : Nat) : Store :=
  ⟨store.products, store.orders ++ [⟨BsonId.oid n, o.userId, o.items⟩]⟩

/-- The store states reachable from empty using only the public write
endpoints `POST /products` and `POST /orders`. -/
inductive ApiReachable : Store → Prop
  | empty : ApiReachable ⟨[], []⟩
  | product {s : Store} (p : Product) (n : Nat) :
      ApiReachable s → ApiReachable (create_product s p n)
  | order {s : Store} (o : Order) (n : Nat) :
      ApiReachable s → ApiReachable (create_order s o n)

/-! ### Structural lemmas about the pipeline -/

/-- Every row reaching `$group` traces back to a matched order, one of its
items, and a product of the catalog whose `_id` equals that item's
`productId` as a BSON string. -/
theorem pipelineRows_trace {store : Store} {u : String} {r : Row2}
    (hr : r ∈ pipelineRows store u) :
    ∃ o ∈ store.orders, o.userId = u ∧ r._id = o._id ∧
      ∃ it ∈ o.items, r.items.productId = it.productId ∧ r.items.qty = it.qty ∧
        r.items.productDetails ∈ store.products ∧
        r.items.productDetails._id = BsonId.str it.productId := by
  rw [pipelineRows, unwindDetails] at hr
  rw [List.mem_flatMap] at hr
  obtain ⟨rl, hrl, hr⟩ := hr
  rw [List.mem_map] at hr
  obtain ⟨p, hp, rfl⟩ := hr
  rw [lookupStage, List.mem_map] at hrl
  obtain ⟨r1, hr1, rfl⟩ := hrl
  simp only [List.mem_filter, decide_eq_true_eq] at hp
  rw [unwindItems, List.mem_flatMap] at hr1
  obtain ⟨o, ho, hr1⟩ := hr1
  rw [List.mem_map] at hr1
  obtain ⟨it, hit, rfl⟩ := hr1
  rw [matchStage, List.mem_filter, decide_eq_true_eq] at ho
  exact ⟨o, ho.1, ho.2, rfl, it, hit, rfl, rfl, hp.1, hp.2⟩

/-- A `$group` key is materialized only if some input row carries it. -/
theorem groupKeys_sub {rows : List Row2} {k : BsonId} (hk : k ∈ groupKeys rows) :
    ∃ r ∈ rows, r._id = k := by
  induction rows with
  | nil => simp [groupKeys] at hk
  | cons r rs ih =>
    rw [groupKeys, List.mem_cons] at hk
    rcases hk with rfl | hk
    · exact ⟨r, List.mem_cons_self .., rfl⟩
    · obtain ⟨r', hr', hk'⟩ := ih (List.mem_of_mem_filter hk)
      exact ⟨r', List.mem_cons_of_mem _ hr', hk'⟩

/-- Characterization of a group emitted by `$group`: its pushed items and
its accumulated total both range over exactly the rows carrying its key. -/
theorem mem_groupStage_spec {rows : List Row2} {grp : GroupedOrder}
    (h : grp ∈ groupStage rows) :
    grp._id ∈ groupKeys rows ∧
    grp.items = (rows.filter (fun r => decide (r._id = grp._id))).map (fun r => r.items) ∧
    grp.total = ((rows.filter (fun r => decide (r._id = grp._id))).map
      (fun r => (r.items.qty : ℚ) * r.items.productDetails.price)).sum := by
  rw [groupStage, List.mem_map] at h
  obtain ⟨k, hk, rfl⟩ := h
  exact ⟨hk, rfl, rfl⟩

/-- Every order of a response is the shaping of a group of the pipeline. -/
theorem mem_data_shape {store : Store} {u : String} {limit offset : Int} {g : OrderOut}
    (h : g ∈ (get_user_orders store u limit offset).data) :
    ∃ grp ∈ groupStage (pipelineRows store u), g = shapeOrder grp := by
  rw [get_user_orders] at h
  simp only [List.mem_map] at h
  obtain ⟨grp, hgrp, rfl⟩ := h
  exact ⟨grp, List.drop_subset _ _ (List.take_subset _ _ hgrp), rfl⟩

/-! ### Concrete stores used by scenarios and witnesses -/

/-- The scenario store of the spec: user `u1` has one order (`o1`) with one
item `{productId: "p1", qty: 2}`, and product `p1` has price `10.0`. -/
def scenarioStore : Store :=
  ⟨[⟨BsonId.str "p1", "Red Shirt", 10, [⟨"M", 5⟩]⟩],
   [⟨BsonId.str "o1", "u1", [⟨"p1", 2⟩]⟩]⟩

/-- A store in which user `u1` has a single order whose only item references
a product (`p1`) that does not exist. -/
def emptyJoinStore : Store := ⟨[], [⟨BsonId.str "o1", "u1", [⟨"p1", 1⟩]⟩]⟩

/-- A store exercising both join outcomes for `u1`: order `o1` references a
nonexistent product `p1`; order `o2` references the existing `p2`. -/
def mixedStore : Store :=
  ⟨[⟨BsonId.str "p2", "Pants", 1, []⟩],
   [⟨BsonId.str "o1", "u1", [⟨"p1", 1⟩]⟩,
    ⟨BsonId.str "o2", "u1", [⟨"p2", 1⟩]⟩]⟩

/-- Like `mixedStore`, but the first order (`o0`) has an empty item list. -/
def c4Store : Store :=
  ⟨[⟨BsonId.str "p2", "Pants", 1, []⟩],
   [⟨BsonId.str "o0", "u1", []⟩,
    ⟨BsonId.str "o2", "u1", [⟨"p2", 1⟩]⟩]⟩

/-- The single surviving enriched order of `mixedStore` (and of `c4Store`)
for user `u1`. -/
def pantsOrderOut : OrderOut := ⟨[⟨"p2", 1, ⟨"Pants", 1, "p2"⟩⟩], 1, "o2"⟩

/-- Evaluation of the endpoint on `mixedStore`: only `o2` survives. -/
theorem mixedStore_data :
    (get_user_orders mixedStore "u1" 10 0).data = [pantsOrderOut] := by
  simp [get_user_orders, mixedStore, pipelineRows, matchStage, unwindItems, lookupStage,
    unwindDetails, groupKeys, groupStage, shapeOrder, shapeItem, shapeProduct, BsonId.toStr,
    pantsOrderOut]

/-- Evaluation of the endpoint on `c4Store`: only `o2` survives. -/
theorem c4Store_data :
    (get_user_orders c4Store "u1" 10 0).data = [pantsOrderOut] := by
  simp [get_user_orders, c4Store, pipelineRows, matchStage, unwindItems, lookupStage,
    unwindDetails, groupKeys, groupStage, shapeOrder, shapeItem, shapeProduct, BsonId.toStr,
    pantsOrderOut]

def catalogStore : Store :=
  ⟨[⟨BsonId.oid 1, "Red Shirt", 10, []⟩,
    ⟨BsonId.oid 2, "shirt-style-2", 5, []⟩,
    ⟨BsonId.oid 3, "Pants", 7, []⟩], []⟩

/-! ### The claims -/

/-- C1: in `get_user_orders`, if no product's identifier equals an item's
`productId` (as a BSON string), that (order, item) row is discarded by the
inner join: no returned order of any response contains an item with that
`productId`. Together with C2 (the total is the sum over the returned
items), such an item also contributes nothing to any total. -/
theorem C1_join_drops_unmatched (store : Store) (user_id pid : String)
    (limit offset : Int)
    (h : ∀ p ∈ store.products, p._id ≠ BsonId.str pid) :
    ∀ g ∈ (get_user_orders store user_id limit offset).data,
      ∀ it ∈ g.items, it.productId ≠ pid := by
  intro g hg it hit
  obtain ⟨grp, hgrp, rfl⟩ := mem_data_shape hg
  obtain ⟨-, hitems, -⟩ := mem_groupStage_spec hgrp
  simp only [shapeOrder, List.mem_map] at hit
  obtain ⟨jt, hjt, rfl⟩ := hit
  rw [hitems, List.mem_map] at hjt
  obtain ⟨r, hr, rfl⟩ := hjt
  obtain ⟨o, ho, huser, hid, it0, hit0, hpid, hqty, hpd, hpdid⟩ :=
    pipelineRows_trace (List.mem_of_mem_filter hr)
  intro hEq
  apply h _ hpd
  rw [hpdid, ← hpid]
  exact congrArg BsonId.str hEq

/-- Witness for C1 on `mixedStore`: the surviving item's `productId` is not
the unmatched `p1`. -/
theorem C1_witness : (⟨"p2", 1, ⟨"Pants", 1, "p2"⟩⟩ : ItemOut).productId ≠ "p1" :=
  C1_join_drops_unmatched mixedStore "u1" "p1" 10 0 (by decide) pantsOrderOut
    (by rw [mixedStore_data]; exact List.mem_singleton_self _)
    ⟨"p2", 1, ⟨"Pants", 1, "p2"⟩⟩ (by simp [pantsOrderOut])

/-- C2: every returned order's `total` equals the sum over its surviving
items of `qty * productDetails.price`, recomputed from the returned data. -/
theorem C2_total_recomputed (store : Store) (u : String) (limit offset : Int) :
    ∀ g ∈ (get_user_orders store u limit offset).data,
      g.total = (g.items.map (fun it => (it.qty : ℚ) * it.productDetails.price)).sum := by
  intro g hg
  obtain ⟨grp, hgrp, rfl⟩ := mem_data_shape hg
  obtain ⟨-, hitems, htotal⟩ := mem_groupStage_spec hgrp
  simp only [shapeOrder]
  rw [htotal, hitems, List.map_map, List.map_map]
  rfl

/-- Witness for C2 on `mixedStore`. -/
theorem C2_witness :
    pantsOrderOut.total =
      (pantsOrderOut.items.map (fun it => (it.qty : ℚ) * it.productDetails.price)).sum :=
  C2_total_recomputed mixedStore "u1" 10 0 pantsOrderOut
    (by rw [mixedStore_data]; exact List.mem_singleton_self _)

/-- C3 counterexample: in `emptyJoinStore`, user `u1` has an order `o1`
whose every item misses the join; the claim says that order is still
emitted with `items = []` and `total = 0`, but the response's `data` is
empty — in particular the claimed empty order is not in it. -/
theorem C3_counterexample_vanishes :
    (get_user_orders emptyJoinStore "u1" 10 0).data = [] ∧
    OrderOut.mk [] 0 "o1" ∉ (get_user_orders emptyJoinStore "u1" 10 0).data := by
  decide

/-- C3 (amended): an order of the user whose every item misses the join is
absent from the result entirely — `$group` materializes a key only when
some row carries it. The identifier-injectivity hypothesis rules out an
unrelated order document whose shaped id collides with this order's. -/
theorem C3_all_unmatched_order_absent (store : Store) (u : String)
    (limit offset : Int) (o : OrderDoc) (ho : o ∈ store.orders)
    (hitems : ∀ it ∈ o.items, ∀ p ∈ store.products, p._id ≠ BsonId.str it.productId)
    (hinj : ∀ o' ∈ store.orders, o'._id.toStr = o._id.toStr → o' = o) :
    ∀ g ∈ (get_user_orders store u limit offset).data, g.id ≠ o._id.toStr := by
  intro g hg hEq
  obtain ⟨grp, hgrp, rfl⟩ := mem_data_shape hg
  obtain ⟨hkey, -, -⟩ := mem_groupStage_spec hgrp
  obtain ⟨r, hr, hrid⟩ := groupKeys_sub hkey
  obtain ⟨o', ho', -, hid, it, hit, -, -, hpd, hpdid⟩ := pipelineRows_trace hr
  have heq2 : o' = o := hinj o' ho' (by rw [← hid, hrid]; exact hEq)
  subst heq2
  exact hitems it hit _ hpd hpdid

/-- Witness for the amended C3 on `mixedStore`: the returned order is not
the all-unmatched `o1`. -/
theorem C3_witness : pantsOrderOut.id ≠ (BsonId.str "o1").toStr :=
  C3_all_unmatched_order_absent mixedStore "u1" 10 0 ⟨BsonId.str "o1", "u1", [⟨"p1", 1⟩]⟩
    (by decide) (by decide) (by decide) pantsOrderOut
    (by rw [mixedStore_data]; exact List.mem_singleton_self _)

/-- C4: the `$unwind` flattening yields exactly one row per (order, item)
pair — its rows are characterized by those pairs, and its length is the sum
of the orders' item counts — and an order with zero items yields zero rows
and is removed from the final result. -/
theorem C4_flatten_rows (store : Store) (u : String) (limit offset : Int) (o : OrderDoc)
    (ho : o ∈ store.orders) (hempty : o.items = [])
    (hinj : ∀ o' ∈ store.orders, o'._id.toStr = o._id.toStr → o' = o) :
    (∀ (os : List OrderDoc) (r : Row1), r ∈ unwindItems os ↔
      ∃ od ∈ os, ∃ it ∈ od.items, r = ⟨od._id, od.userId, it⟩) ∧
    (∀ os : List OrderDoc,
      (unwindItems os).length = (os.map (fun od => od.items.length)).sum) ∧
    ∀ g ∈ (get_user_orders store u limit offset).data, g.id ≠ o._id.toStr := by
  refine ⟨?_, ?_, ?_⟩
  · intro os r
    simp [unwindItems, List.mem_flatMap, List.mem_map, eq_comm]
  · intro os
    induction os with
    | nil => rfl
    | cons od os ih =>
      simp only [unwindItems, List.flatMap_cons, List.length_append, List.length_map,
        List.map_cons, List.sum_cons] at ih ⊢
      omega
  · intro g hg hEq
    obtain ⟨grp, hgrp, rfl⟩ := mem_data_shape hg
    obtain ⟨hkey, -, -⟩ := mem_groupStage_spec hgrp
    obtain ⟨r, hr, hrid⟩ := groupKeys_sub hkey
    obtain ⟨o', ho', -, hid, it, hit, -⟩ := pipelineRows_trace hr
    have heq2 : o' = o := hinj o' ho' (by rw [← hid, hrid]; exact hEq)
    subst heq2
    rw [hempty] at hit
    simp at hit

/-- Witness for C4 on `c4Store`: the row count matches the item counts, and
the zero-item order `o0` is not in the result. -/
theorem C4_witness :
    ((unwindItems c4Store.orders).length =
      (c4Store.orders.map (fun od => od.items.length)).sum) ∧
    pantsOrderOut.id ≠ (BsonId.str "o0").toStr := by
  have h := C4_flatten_rows c4Store "u1" 10 0 ⟨BsonId.str "o0", "u1", []⟩
    (by decide) rfl (by decide)
  exact ⟨h.2.1 c4Store.orders,
    h.2.2 pantsOrderOut (by rw [c4Store_data]; exact List.mem_singleton_self _)⟩

/-- C5: for every valid request (`limit ≥ 1`, `offset ≥ 0`) to both
endpoints, `page.next = offset + limit`, `page.previous = max(0, offset -
limit)`, and `page.limit` is the number of entries actually returned. -/
theorem C5_pagination_envelope (store : Store) (u : String) (name size : Option String)
    (limit offset : Int) (hl : 1 ≤ limit) (ho : 0 ≤ offset) :
    ((get_user_orders store u limit offset).page.next = offset + limit ∧
     (get_user_orders store u limit offset).page.previous = max 0 (offset - limit) ∧
     (get_user_orders store u limit offset).page.limit =
       (get_user_orders store u limit offset).data.length) ∧
    ((list_products store name size limit offset).page.next = offset + limit ∧
     (list_products store name size limit offset).page.previous = max 0 (offset - limit) ∧
     (list_products store name size limit offset).page.limit =
       (list_products store name size limit offset).data.length) :=
  ⟨⟨rfl, rfl, rfl⟩, ⟨rfl, rfl, rfl⟩⟩

/-- Witness for C5 at `limit = 10`, `offset = 0`. -/
theorem C5_witness :
    (get_user_orders mixedStore "u1" 10 0).page.next = 0 + 10 ∧
    (list_products catalogStore none none 10 0).page.next = 0 + 10 :=
  ⟨(C5_pagination_envelope mixedStore "u1" none none 10 0 (by decide) (by decide)).1.1,
   (C5_pagination_envelope catalogStore "u1" none none 10 0 (by decide) (by decide)).2.1⟩

/-- C6: for every valid request, the `data` of `get_user_orders` has at
most `limit` entries, and is exactly the window of the shaped result groups
obtained by skipping `offset` groups and taking up to `limit`. -/
theorem C6_window_bound (store : Store) (u : String) (limit offset : Int)
    (hl : 1 ≤ limit) (ho : 0 ≤ offset) :
    ((get_user_orders store u limit offset).data.length : Int) ≤ limit ∧
    (get_user_orders store u limit offset).data =
      ((allEnrichedOrders store u).drop offset.toNat).take limit.toNat := by
  constructor
  · have h1 : (get_user_orders store u limit offset).data.length ≤ limit.toNat := by
      simp only [get_user_orders, List.length_map, List.length_take]
      omega
    have h2 : (limit.toNat : Int) = limit := Int.toNat_of_nonneg (by omega)
    calc ((get_user_orders store u limit offset).data.length : Int)
        ≤ (limit.toNat : Int) := by exact_mod_cast h1
      _ = limit := h2
  · simp [get_user_orders, allEnrichedOrders, List.map_take, List.map_drop]

/-- Witness for C6 on `mixedStore`. -/
theorem C6_witness :
    ((get_user_orders mixedStore "u1" 10 0).data.length : Int) ≤ 10 ∧
    (get_user_orders mixedStore "u1" 10 0).data =
      ((allEnrichedOrders mixedStore "u1").drop (0 : Int).toNat).take (10 : Int).toNat :=
  C6_window_bound mixedStore "u1" 10 0 (by decide) (by decide)

/-- C7: `list_products` with a `name` parameter returns exactly the
(windowed, shaped) products whose name contains the text as a
case-insensitive substring; on the spec's catalog, `name=shirt` matches
"Red Shirt" and "shirt-style-2" but not "Pants". -/
theorem C7_name_filter (store : Store) (pat : String) (limit offset : Int) :
    ((list_products store (some pat) none limit offset).data =
      (((store.products.filter (fun p => containsCI pat p.name)).drop offset.toNat).take
        limit.toNat).map shapeProduct) ∧
    (list_products catalogStore (some "shirt") none 10 0).data.map (fun p => p.name) =
      ["Red Shirt", "shirt-style-2"] := by
  constructor
  · have hfilter : store.products.filter (productQueryMatches (some pat) none) =
        store.products.filter (fun p => containsCI pat p.name) := by
      apply List.filter_congr
      intro p hp
      by_cases hpat : pat = ""
      · subst hpat
        have h0 : containsCI "" p.name = true := by
          rw [containsCI, show foldedCodes "" = ([] : List Nat) by decide]
          simp [List.nil_infix]
        simp [productQueryMatches, h0]
      · simp [productQueryMatches, hpat]
    simp [list_products, hfilter]
  · decide

/-- C8: a `userId` with no orders yields a successful response with empty
`data` (the model has no failure path; the endpoint always produces a
response). -/
theorem C8_no_orders_empty (store : Store) (u : String) (limit offset : Int)
    (h : ∀ o ∈ store.orders, o.userId ≠ u) :
    (get_user_orders store u limit offset).data = [] := by
  have hm : matchStage store.orders u = [] := by
    rw [matchStage, List.filter_eq_nil_iff]
    intro o ho
    simp [h o ho]
  simp [get_user_orders, pipelineRows, hm, unwindItems, lookupStage, unwindDetails,
    groupStage, groupKeys]

/-- Witness for C8: `nobody` has no orders in `mixedStore`. -/
theorem C8_witness : (get_user_orders mixedStore "nobody" 10 0).data = [] :=
  C8_no_orders_empty mixedStore "nobody" 10 0 (by decide)

/-- C9: the scenario postcondition on `scenarioStore` — one order returned,
`total = 20`, the item's `productDetails.id = "p1"`, the product's name and
price carried over; the output type `ProductOut` has no `sizes` field, so
no `sizes` appears anywhere in the shaped response. -/
theorem C9_scenario :
    get_user_orders scenarioStore "u1" 10 0 =
      ⟨[⟨[⟨"p1", 2, ⟨"Red Shirt", 10, "p1"⟩⟩], 20, "o1"⟩], ⟨10, 1, 0⟩⟩ := by
  simp [get_user_orders, scenarioStore, pipelineRows, matchStage, unwindItems, lookupStage,
    unwindDetails, groupKeys, groupStage, shapeOrder, shapeItem, shapeProduct, BsonId.toStr]
  norm_num

/-- Every product document of a store reachable through the public write
endpoints has a store-assigned ObjectId as its `_id`. -/
theorem products_oid_of_reachable {s : Store} (h : ApiReachable s) :
    ∀ p ∈ s.products, ∃ n, p._id = BsonId.oid n := by
  induction h with
  | empty => intro p hp; simp at hp
  | product p n hs ih =>
    intro q hq
    rw [create_product] at hq
    rcases List.mem_append.mp hq with h1 | h1
    · exact ih q h1
    · simp at h1; subst h1; exact ⟨n, rfl⟩
  | order o n hs ih =>
    intro q hq
    rw [create_order] at hq
    exact ih q hq

/-- C10: on every store populated solely through `POST /products` and
`POST /orders`, the `$lookup` compares an item's `productId` string to a
store-assigned ObjectId, which never match, so `get_user_orders` returns
empty `data` for every user. -/
theorem C10_api_store_always_empty (store : Store) (h : ApiReachable store)
    (u : String) (limit offset : Int) :
    (get_user_orders store u limit offset).data = [] := by
  have hrows : pipelineRows store u = [] := by
    rw [List.eq_nil_iff_forall_not_mem]
    intro r hr
    obtain ⟨o, ho, -, -, it, hit, -, -, hpd, hpdid⟩ := pipelineRows_trace hr
    obtain ⟨n, hn⟩ := products_oid_of_reachable h _ hpd
    rw [hn] at hpdid
    exact BsonId.noConfusion hpdid
  simp [get_user_orders, hrows, groupStage, groupKeys]

/-- Witness for C10: a store built by one `POST /products` and one
`POST /orders` whose item names the product by the string "p1". -/
theorem C10_witness :
    (get_user_orders
      (create_order (create_product ⟨[], []⟩ ⟨"Red Shirt", 10, []⟩ 0) ⟨"u1", [⟨"p1", 2⟩]⟩ 1)
      "u1" 10 0).data = [] :=
  C10_api_store_always_empty _
    (ApiReachable.order _ 1 (ApiReachable.product _ 0 ApiReachable.empty)) "u1" 10 0
